import Mathlib

/-!
# Verification of the bank-risk training bot's adaptive learning core

Shallow embedding of the adaptive-learning core of the Telegram training
bot (`src/ai_agent/graph/learning_graph.py`, `src/bot/handlers/lesson_handler.py`,
`src/services/user_service.py`, constants from `src/config/settings.py`),
together with theorems settling the frozen claims about it.

Conventions:
* Python `int` counters are modelled as `Nat` (they start at 0/1 and are
  only incremented, or clamped to `[1,5]`); answer indices are `Int`
  because the code normalizes non-numeric input to `-1`.
* Percentages/ratios computed with float division in Python are modelled
  exactly in `ℚ`; at the concrete thresholds exercised by the claims the
  float comparison and the rational comparison agree.
* `json.loads` is modelled by an executable recursive-descent decoder of
  the JSON grammar (`jsonParse`).
-/

namespace BankRiskBot

/-! ## Learning context and answer processing
(`LearningContext` and `_process_answer_direct`, learning_graph.py)

`LearningContext` carries `user_id`, the difficulty level and the four
session counters.  The fields irrelevant to the claims
(`current_topic_id`, `current_lesson_id`, `session_history`,
`knowledge_gaps`, `strengths`) are omitted; `_process_answer_direct`
touches none of them. -/

structure LearningContext where
  user_id : Nat := 0
  current_difficulty : Nat := 1
  questions_answered : Nat := 0
  correct_answers : Nat := 0
  consecutive_correct : Nat := 0
  consecutive_incorrect : Nat := 0
deriving DecidableEq, Repr

/-- A freshly created `LearningContext(user_id=...)`: difficulty 1, all
counters 0 (the dataclass defaults in learning_graph.py). -/
def freshContext (uid : Nat) : LearningContext := { user_id := uid }

/-- Counter update of `_process_answer_direct` (learning_graph.py lines
144-152): increment `questions_answered`; on a correct answer increment
`correct_answers` and the correct streak and zero the incorrect streak,
symmetrically otherwise. -/
def updateCounters (ctx : LearningContext) (isCorrect : Bool) : LearningContext :=
  if isCorrect then
    { ctx with
        questions_answered := ctx.questions_answered + 1
        correct_answers := ctx.correct_answers + 1
        consecutive_correct := ctx.consecutive_correct + 1
        consecutive_incorrect := 0 }
  else
    { ctx with
        questions_answered := ctx.questions_answered + 1
        consecutive_incorrect := ctx.consecutive_incorrect + 1
        consecutive_correct := 0 }

/-- Difficulty adaptation of `_process_answer_direct` (learning_graph.py
lines 161-170): raise by one (clamped to 5) when the consecutive-correct
streak reaches 2 and the level is below 5, lower by one (clamped to 1)
when the consecutive-incorrect streak reaches 2 and the level is above 1. -/
def adaptDifficulty (ctx : LearningContext) : LearningContext :=
  if 2 ≤ ctx.consecutive_correct ∧ ctx.current_difficulty < 5 then
    { ctx with current_difficulty := min (ctx.current_difficulty + 1) 5 }
  else if 2 ≤ ctx.consecutive_incorrect ∧ 1 < ctx.current_difficulty then
    { ctx with current_difficulty := max (ctx.current_difficulty - 1) 1 }
  else ctx

/-- One processed answer: the counter update followed by the difficulty
adaptation, exactly as they are sequenced in `_process_answer_direct`. -/
def processAnswerStep (ctx : LearningContext) (isCorrect : Bool) : LearningContext :=
  adaptDifficulty (updateCounters ctx isCorrect)

/-- A whole session of processed answers starting from a given context. -/
def runAnswers (ctx : LearningContext) (answers : List Bool) : LearningContext :=
  answers.foldl processAnswerStep ctx

/-! ## Answer evaluation (`_process_answer_direct`, learning_graph.py lines 138-142) -/

/-- ASCII decimal digit test (`'0'` to `'9'`). -/
def isDig (c : Char) : Bool := 48 ≤ c.toNat && c.toNat ≤ 57

/-- Numeric value of a decimal digit character. -/
def digitVal (c : Char) : Nat := c.toNat - 48

/-- Value of a list of decimal digit characters, most significant first. -/
def digitsToNat (ds : List Char) : Nat := ds.foldl (fun a c => 10 * a + digitVal c) 0

/-- Model of Python `answer.isdigit()` on the ASCII fragment: non-empty
and all characters decimal digits.  (Python additionally accepts Unicode
digit characters; the bot's answers are ASCII callback strings.) -/
def pyIsDigitStr (s : String) : Bool := !s.toList.isEmpty && s.toList.all isDig

/-- Model of `int(answer) if answer.isdigit() else -1`
(learning_graph.py line 139): digit strings parse to their decimal value,
everything else is normalized to the impossible index `-1`. -/
def parsePyInt (s : String) : Int :=
  if pyIsDigitStr s then (digitsToNat s.toList : Int) else -1

/-- `is_correct = user_answer_index == correct_answer_index`
(learning_graph.py line 142): pure equality comparison after the
normalization above. -/
def evaluateAnswer (answer : String) (correctIndex : Int) : Bool :=
  parsePyInt answer == correctIndex

/-- Canonical decimal digit character for a value below 10. -/
def digChar (d : Nat) : Char :=
  if d = 0 then '0' else if d = 1 then '1' else if d = 2 then '2'
  else if d = 3 then '3' else if d = 4 then '4' else if d = 5 then '5'
  else if d = 6 then '6' else if d = 7 then '7' else if d = 8 then '8' else '9'

/-- Canonical decimal representation of a natural number, most
significant digit first (the string Python's `str` would print). -/
def natToDecChars (n : Nat) : List Char :=
  if _h : n < 10 then [digChar n]
  else natToDecChars (n / 10) ++ [digChar (n % 10)]
decreasing_by exact Nat.div_lt_self (by omega) (by omega)

/-- Decimal string of a natural number. -/
def natToDecString (n : Nat) : String := (natToDecChars n).asString

end BankRiskBot

namespace BankRiskBot

/-! ### Decimal round-trip lemmas -/

theorem digitsToNat_append (cs : List Char) (c : Char) :
    digitsToNat (cs ++ [c]) = 10 * digitsToNat cs + digitVal c := by
  simp [digitsToNat, List.foldl_append]

theorem digChar_val {d : Nat} (h : d < 10) : digitVal (digChar d) = d := by
  interval_cases d <;> rfl

theorem digChar_isDig (d : Nat) : isDig (digChar d) = true := by
  unfold digChar
  split <;> try rfl
  split <;> try rfl
  split <;> try rfl
  split <;> try rfl
  split <;> try rfl
  split <;> try rfl
  split <;> try rfl
  split <;> try rfl
  split <;> rfl

theorem digitsToNat_natToDecChars (n : Nat) : digitsToNat (natToDecChars n) = n := by
  induction n using Nat.strong_induction_on with
  | _ n ih =>
    unfold natToDecChars
    split
    · next h =>
      simp [digitsToNat, digChar_val h]
    · next h =>
      rw [digitsToNat_append, ih (n / 10) (Nat.div_lt_self (by omega) (by omega)),
        digChar_val (Nat.mod_lt _ (by omega))]
      omega

theorem natToDecChars_ne_nil (n : Nat) : natToDecChars n ≠ [] := by
  unfold natToDecChars
  split <;> simp

theorem natToDecChars_all_digits (n : Nat) : (natToDecChars n).all isDig = true := by
  induction n using Nat.strong_induction_on with
  | _ n ih =>
    unfold natToDecChars
    split
    · simp [digChar_isDig]
    · next h =>
      rw [List.all_append, ih (n / 10) (Nat.div_lt_self (by omega) (by omega))]
      simp [digChar_isDig]

theorem pyIsDigitStr_natToDecString (n : Nat) : pyIsDigitStr (natToDecString n) = true := by
  have htl : (natToDecString n).toList = natToDecChars n := rfl
  unfold pyIsDigitStr
  rw [htl, natToDecChars_all_digits]
  have := natToDecChars_ne_nil n
  simp [List.isEmpty_iff, this]

theorem parsePyInt_natToDecString (n : Nat) : parsePyInt (natToDecString n) = (n : Int) := by
  have htl : (natToDecString n).toList = natToDecChars n := rfl
  unfold parsePyInt
  rw [pyIsDigitStr_natToDecString, htl, digitsToNat_natToDecChars]
  rfl

/-! ## Generated questions and the fallback bank
(`_create_fallback_question`, learning_graph.py lines 523-541) -/

/-- A generated question object (the JSON shape produced by the pipeline
and stored in the fallback bank). -/
structure Question where
  question : String
  options : List String
  correct_answer : Int
  explanation : String
  difficulty : Nat
  topic : String
deriving DecidableEq, Repr

/-- The single pre-authored fallback question (the level-1 RTO question
literal in `_create_fallback_question`). -/
def rtoFallbackQuestion : Question :=
  { question := "Что означает аббревиатура RTO в контексте управления рисками?"
    options :=
      [ "Время восстановления процесса"
      , "Реальное время операций"
      , "Результат технической оценки"
      , "Режим текущей операции" ]
    correct_answer := 0
    explanation := "RTO (Recovery Time Objective) - это целевое время восстановления процесса после реализации угрозы непрерывности."
    difficulty := 1
    topic := "Основные понятия" }

/-- The `fallback_questions` dictionary of `_create_fallback_question`:
it has exactly one key, 1. -/
def fallbackQuestions (difficulty : Nat) : Option Question :=
  if difficulty = 1 then some rtoFallbackQuestion else none

/-- `_create_fallback_question(difficulty)`:
`fallback_questions.get(difficulty, fallback_questions[1])`. -/
def createFallbackQuestion (difficulty : Nat) : Question :=
  (fallbackQuestions difficulty).getD rtoFallbackQuestion

/-- Modelled from the spec: the VALIDATE contract of spec §4.2 on a
question record — question text length ≥ 10, exactly 4 options,
`correct_answer` an integer in `[0,4)`, explanation length ≥ 10.  The
source pipeline contains no validation step, so this predicate follows
the spec's words; it is the standard the claims measure questions
against. -/
def validQuestionSpec (q : Question) : Bool :=
  decide (10 ≤ q.question.length) && (q.options.length == 4) &&
    decide (0 ≤ q.correct_answer) && decide (q.correct_answer < 4) &&
    decide (10 ≤ q.explanation.length)

/-! ## JSON values and a model of `json.loads`

The pipeline calls `json.loads` on the cleaned LLM response
(learning_graph.py line 304).  `jsonParse` below is an executable
recursive-descent decoder of the JSON grammar (RFC 8259: values, objects,
arrays, strings with escapes, numbers, literals, with insignificant
whitespace and nothing but whitespace allowed after the top-level value),
the Lean model of `json.loads`.  Numbers are represented exactly in `ℚ`
where Python uses `int`/`float`. -/

/-- A decoded JSON value. -/
inductive JVal where
  | null : JVal
  | boolean : Bool → JVal
  | num : ℚ → JVal
  | str : String → JVal
  | arr : List JVal → JVal
  | obj : List (String × JVal) → JVal

/-- `{` written without a brace character. -/
def lbraceChar : Char := Char.ofNat 123

/-- `}` written without a brace character. -/
def rbraceChar : Char := Char.ofNat 125

/-- JSON insignificant whitespace (space, tab, newline, carriage return). -/
def jsonWs (c : Char) : Bool := c = ' ' || c = '\t' || c = '\n' || c = '\r'

/-- Drop leading JSON whitespace. -/
def skipWs : List Char → List Char
  | [] => []
  | c :: cs => if jsonWs c then skipWs cs else c :: cs

/-- Value of a hexadecimal digit, if any. -/
def hexVal (c : Char) : Option Nat :=
  if 48 ≤ c.toNat ∧ c.toNat ≤ 57 then some (c.toNat - 48)
  else if 97 ≤ c.toNat ∧ c.toNat ≤ 102 then some (c.toNat - 87)
  else if 65 ≤ c.toNat ∧ c.toNat ≤ 70 then some (c.toNat - 55)
  else none

/-- Body of a JSON string after the opening quote: collect characters up
to the closing quote, decoding the standard escapes; unescaped control
characters are rejected. -/
def parseStrChars : Nat → List Char → Option (List Char × List Char)
  | 0, _ => none
  | _, [] => none
  | fuel + 1, c :: cs =>
    if c = '"' then some ([], cs)
    else if c = '\\' then
      match cs with
      | [] => none
      | e :: cs2 =>
        let esc : Option (Char × List Char) :=
          if e = '"' then some ('"', cs2)
          else if e = '\\' then some ('\\', cs2)
          else if e = '/' then some ('/', cs2)
          else if e = 'b' then some (Char.ofNat 8, cs2)
          else if e = 'f' then some (Char.ofNat 12, cs2)
          else if e = 'n' then some ('\n', cs2)
          else if e = 'r' then some ('\r', cs2)
          else if e = 't' then some ('\t', cs2)
          else if e = 'u' then
            match cs2 with
            | h1 :: h2 :: h3 :: h4 :: cs3 =>
              match hexVal h1, hexVal h2, hexVal h3, hexVal h4 with
              | some a, some b, some c3, some d =>
                some (Char.ofNat (((a * 16 + b) * 16 + c3) * 16 + d), cs3)
              | _, _, _, _ => none
            | _ => none
          else none
        match esc with
        | some (ch, rest) =>
          match parseStrChars fuel rest with
          | some (out, rem) => some (ch :: out, rem)
          | none => none
        | none => none
    else if c.toNat < 32 then none
    else
      match parseStrChars fuel cs with
      | some (out, rem) => some (c :: out, rem)
      | none => none

/-- Longest prefix of decimal digits, and the rest. -/
def takeDigits : List Char → (List Char × List Char)
  | [] => ([], [])
  | c :: cs =>
    if isDig c then
      let (ds, r) := takeDigits cs
      (c :: ds, r)
    else ([], c :: cs)

/-- Optional fraction part `.digits`; `none` on a dot with no digits. -/
def parseFracPart : List Char → Option (List Char × List Char)
  | [] => some ([], [])
  | c :: r =>
    if c = '.' then
      match takeDigits r with
      | ([], _) => none
      | (ds, r2) => some (ds, r2)
    else some ([], c :: r)

/-- Optional exponent part `(e|E)(+|-)?digits`; `none` on a marker with
no digits. -/
def parseExpPart : List Char → Option (Int × List Char)
  | [] => some (0, [])
  | c :: r =>
    if c = 'e' ∨ c = 'E' then
      let (esign, r1) : Int × List Char :=
        match r with
        | s :: r2 => if s = '+' then (1, r2) else if s = '-' then (-1, r2) else (1, r)
        | [] => (1, r)
      match takeDigits r1 with
      | ([], _) => none
      | (ds, r2) => some (esign * (digitsToNat ds : Int), r2)
    else some (0, c :: r)

/-- JSON number: optional minus, integer part (`0` or a nonzero-led digit
run), optional fraction and exponent, valued exactly in `ℚ`. -/
def parseNumber (cs : List Char) : Option (ℚ × List Char) :=
  let (neg, cs1) : Bool × List Char :=
    match cs with
    | c :: r => if c = '-' then (true, r) else (false, c :: r)
    | [] => (false, [])
  match cs1 with
  | [] => none
  | c :: r =>
    if isDig c then
      let (intDs, cs2) := if c = '0' then ([c], r) else takeDigits (c :: r)
      match parseFracPart cs2 with
      | none => none
      | some (fracDs, cs3) =>
        match parseExpPart cs3 with
        | none => none
        | some (e, cs4) =>
          let mant : ℚ := (digitsToNat (intDs ++ fracDs) : ℚ)
          let v : ℚ := mant * (10 : ℚ) ^ (e - (fracDs.length : Int))
          some (if neg then -v else v, cs4)
    else none

mutual

/-- JSON value parser (fuel-indexed recursive descent). -/
def parseValue : Nat → List Char → Option (JVal × List Char)
  | 0, _ => none
  | fuel + 1, cs =>
    match skipWs cs with
    | [] => none
    | c :: r =>
      if c = '"' then
        match parseStrChars (r.length + 1) r with
        | some (out, rem) => some (.str out.asString, rem)
        | none => none
      else if c = lbraceChar then
        match skipWs r with
        | c2 :: r2 =>
          if c2 = rbraceChar then some (.obj [], r2)
          else
            match parseObjMembers fuel (c2 :: r2) with
            | some (ms, rem) => some (.obj ms, rem)
            | none => none
        | [] => none
      else if c = '[' then
        match skipWs r with
        | c2 :: r2 =>
          if c2 = ']' then some (.arr [], r2)
          else
            match parseArrElems fuel (c2 :: r2) with
            | some (vs, rem) => some (.arr vs, rem)
            | none => none
        | [] => none
      else if c = 't' then
        match r with
        | 'r' :: 'u' :: 'e' :: rem => some (.boolean true, rem)
        | _ => none
      else if c = 'f' then
        match r with
        | 'a' :: 'l' :: 's' :: 'e' :: rem => some (.boolean false, rem)
        | _ => none
      else if c = 'n' then
        match r with
        | 'u' :: 'l' :: 'l' :: rem => some (.null, rem)
        | _ => none
      else
        match parseNumber (c :: r) with
        | some (q, rem) => some (.num q, rem)
        | none => none

/-- One or more comma-separated array elements, then `]`. -/
def parseArrElems : Nat → List Char → Option (List JVal × List Char)
  | 0, _ => none
  | fuel + 1, cs =>
    match parseValue fuel cs with
    | none => none
    | some (v, rest) =>
      match skipWs rest with
      | c :: r =>
        if c = ',' then
          match parseArrElems fuel r with
          | some (vs, rem) => some (v :: vs, rem)
          | none => none
        else if c = ']' then some ([v], r)
        else none
      | [] => none

/-- One or more comma-separated `"key": value` members, then `}`. -/
def parseObjMembers : Nat → List Char → Option (List (String × JVal) × List Char)
  | 0, _ => none
  | fuel + 1, cs =>
    match skipWs cs with
    | [] => none
    | c :: r =>
      if c = '"' then
        match parseStrChars (r.length + 1) r with
        | none => none
        | some (key, rest) =>
          match skipWs rest with
          | [] => none
          | c2 :: r2 =>
            if c2 = ':' then
              match parseValue fuel r2 with
              | none => none
              | some (v, rest2) =>
                match skipWs rest2 with
                | [] => none
                | c3 :: r3 =>
                  if c3 = ',' then
                    match parseObjMembers fuel r3 with
                    | some (ms, rem) => some ((key.asString, v) :: ms, rem)
                    | none => none
                  else if c3 = rbraceChar then some ([(key.asString, v)], r3)
                  else none
            else none
      else none

end

/-- Model of `json.loads`: parse one JSON value, allowing only
insignificant whitespace around it. -/
def jsonParse (s : String) : Option JVal :=
  match parseValue (s.length + 1) s.toList with
  | some (v, rest) => if skipWs rest = [] then some v else none
  | none => none

/-- First value bound to a key in a decoded JSON object. -/
def jlookup (fields : List (String × JVal)) (k : String) : Option JVal :=
  match fields.find? (fun p => p.1 == k) with
  | some p => some p.2
  | none => none

/-- Modelled from the spec: the VALIDATE contract of spec §4.2 read off a
decoded JSON object (the shape an LLM-sourced question arrives in); the
source pipeline contains no validation step.  `correct_answer` must be an
integral number in `[0,4)`. -/
def validJsonQuestionSpec (j : JVal) : Bool :=
  match j with
  | .obj fields =>
    (match jlookup fields "question" with
     | some (.str s) => decide (10 ≤ s.length)
     | _ => false) &&
    (match jlookup fields "options" with
     | some (.arr xs) => xs.length == 4
     | _ => false) &&
    (match jlookup fields "correct_answer" with
     | some (.num q) => (q.den == 1) && decide (0 ≤ q.num) && decide (q.num < 4)
     | _ => false) &&
    (match jlookup fields "explanation" with
     | some (.str s) => decide (10 ≤ s.length)
     | _ => false)
  | _ => false

/-! ## The question-generation pipeline
(`_question_generation_node`, learning_graph.py lines 245-330) -/

/-- Python slice `s[a : len(s) - b]` (the `[7:-3]` / `[3:-3]` fence
slices), with the usual clamping of out-of-range bounds. -/
def pySlice (a b : Nat) (s : String) : String :=
  ((s.toList.drop a).take (s.length - b - a)).asString

/-- Python whitespace for `str.strip()`: space, tab, newline, carriage
return, vertical tab, form feed. -/
def pyWs (c : Char) : Bool :=
  c = ' ' || c = '\t' || c = '\n' || c = '\r' || c = Char.ofNat 11 || c = Char.ofNat 12

/-- Model of Python `str.strip()`: drop whitespace from both ends. -/
def pyStrip (s : String) : String :=
  ((s.toList.dropWhile pyWs).reverse.dropWhile pyWs).reverse.asString

/-- Model of Python `str.startswith(pre)`. -/
def pyStartsWith (s pre : String) : Bool :=
  pre.toList.isPrefixOf s.toList

/-- The response clean-up of learning_graph.py lines 298-302: strip
surrounding whitespace, then drop a leading ```` ```json ```` or
```` ``` ```` markdown fence together with the final three characters. -/
def cleanResponse (raw : String) : String :=
  let s := pyStrip raw
  if pyStartsWith s "```json" then pySlice 7 3 s
  else if pyStartsWith s "```" then pySlice 3 3 s
  else s

/-- Outcome of the LLM call step, as seen by the node: no LLM configured
(`self.llm` falsy), the call (or the prompt construction preceding it)
raised, or the call returned raw text.  The prompt contents do not affect
the node's result beyond the raw text, so they are not modelled. -/
inductive LLMOutcome where
  | noLLM : LLMOutcome
  | llmRaises : LLMOutcome
  | llmReturns : String → LLMOutcome

/-- Result of `_question_generation_node` as seen by its caller: either
`state["error"]` was set (and no question generated), or
`state["generated_question"]` holds an LLM-parsed JSON value or a
fallback-bank question. -/
inductive GenOutcome where
  | genError : String → GenOutcome
  | llmQuestion : JVal → GenOutcome
  | fallbackQuestion : Question → GenOutcome

/-- `true` when the node produced a question object (LLM-sourced or
fallback) instead of an error state. -/
def GenOutcome.isQuestion : GenOutcome → Bool
  | .genError _ => false
  | .llmQuestion _ => true
  | .fallbackQuestion _ => true

/-- `_question_generation_node` as a function of the step outcomes that
can vary at run time: the difficulty level, the retrieval result (`none`
when `knowledge_base.search` raised, caught by the outer handler which
sets `state["error"]`), and the LLM outcome.  Faithful to the branch
structure of learning_graph.py lines 245-330: an empty retrieval result
sets `state["error"]` and returns; a parsed LLM response is returned
as-is; a JSON decode failure, an LLM exception or an absent LLM all fall
back to `_create_fallback_question`.  The keyword/query construction and
logging do not affect the returned state and are not modelled. -/
def questionGenerationNode (difficulty : Nat) (retrieval : Option (List String))
    (llm : LLMOutcome) : GenOutcome :=
  match retrieval with
  | none => .genError "exception raised during question generation"
  | some docs =>
    if docs.isEmpty then .genError "Контент для генерации вопроса не найден"
    else
      match llm with
      | .noLLM => .fallbackQuestion (createFallbackQuestion difficulty)
      | .llmRaises => .fallbackQuestion (createFallbackQuestion difficulty)
      | .llmReturns raw =>
        match jsonParse (cleanResponse raw) with
        | some j => .llmQuestion j
        | none => .fallbackQuestion (createFallbackQuestion difficulty)

/-- Index of the first occurrence of a character, if any. -/
def firstIdx (c : Char) : List Char → Option Nat
  | [] => none
  | x :: xs =>
    if x = c then some 0
    else
      match firstIdx c xs with
      | some i => some (i + 1)
      | none => none

/-- Modelled from the spec: the PARSE_RESPONSE rule of spec §4.3/§4.2 —
"locate first `{` and last `}` in the raw text, slice, attempt structured
decode".  This definition follows the spec's words; the source
(learning_graph.py lines 298-304) instead strips markdown fences and
decodes the whole cleaned text, and the two are compared in the C6
theorems. -/
def specParseResponse (raw : String) : Option JVal :=
  let cs := raw.toList
  match firstIdx lbraceChar cs, firstIdx rbraceChar cs.reverse with
  | some i, some k =>
    let j := cs.length - 1 - k
    if i ≤ j then jsonParse ((cs.drop i).take (j + 1 - i)).asString else none
  | _, _ => none

/-! ## Lesson completion

Two code paths check completion: the graph's `_process_answer_direct`
(learning_graph.py lines 172-189, thresholds `settings.questions_per_lesson`
and `settings.min_lesson_score`, defaults 5 and 80 in settings.py lines
64/67) and the bot handler's `check_lesson_completion`
(lesson_handler.py lines 701-741, hard-coded 4 questions and 75%). -/

/-- Default of `settings.questions_per_lesson` (settings.py line 67). -/
def questionsPerLesson : Nat := 5

/-- Default of `settings.min_lesson_score` (settings.py line 64). -/
def minLessonScore : Nat := 80

/-- The `completion_data` dictionary built by `_process_answer_direct`.
`success_rate` is `correct / answered * 100`, modelled exactly in `ℚ`
(Python computes it in floating point; at the thresholds exercised here
the comparisons agree). -/
structure CompletionData where
  lesson_passed : Bool
  success_rate : ℚ
  questions_answered : Nat
  correct_answers : Nat
  final_difficulty : Nat
deriving DecidableEq, Repr

/-- Lesson-completion check of `_process_answer_direct` (learning_graph.py
lines 172-189): once `questions_answered` reaches the per-lesson
threshold, report completion data with
`lesson_passed = success_rate >= min_lesson_score`; below the threshold
report nothing. -/
def checkCompletionGraph (qpl minScore : Nat) (ctx : LearningContext) : Option CompletionData :=
  if qpl ≤ ctx.questions_answered then
    let rate : ℚ := (ctx.correct_answers : ℚ) / (ctx.questions_answered : ℚ) * 100
    some
      { lesson_passed := decide ((minScore : ℚ) ≤ rate)
        success_rate := rate
        questions_answered := ctx.questions_answered
        correct_answers := ctx.correct_answers
        final_difficulty := ctx.current_difficulty }
  else none

/-- The result dictionary of `_process_answer_direct`: correctness flag,
the updated context, and completion data when the lesson threshold was
reached.  (The feedback strings are presentation text and not modelled.) -/
structure AnswerResult where
  is_correct : Bool
  context : LearningContext
  completion : Option CompletionData
deriving DecidableEq, Repr

/-- `_process_answer_direct` (learning_graph.py lines 131-200) for a
context holding `current_question = q`: evaluate the answer string,
update the counters, adapt the difficulty, then check lesson completion
against the configured thresholds. -/
def processAnswerDirect (qpl minScore : Nat) (ctx : LearningContext) (q : Question)
    (answer : String) : AnswerResult :=
  let isCorrect := evaluateAnswer answer q.correct_answer
  let ctx2 := processAnswerStep ctx isCorrect
  { is_correct := isCorrect
    context := ctx2
    completion := checkCompletionGraph qpl minScore ctx2 }

/-- `check_lesson_completion` of the bot handler (lesson_handler.py lines
701-741) as a function of the per-chat counters: increment them, and
report `true` (lesson completed and passed, with the completion message)
exactly when at least 4 questions are answered and accuracy is at least
75%; otherwise report `false` and the questioning simply continues —
there is no needs-review outcome on this path.  Result:
`(questions_answered', correct_answers', completed)`. -/
def checkLessonCompletion (questionsAnswered correctAnswers : Nat) (isCorrect : Bool) :
    Nat × Nat × Bool :=
  let qa := questionsAnswered + 1
  let ca := correctAnswers + (if isCorrect then 1 else 0)
  (qa, ca, decide (4 ≤ qa ∧ (3 : ℚ) / 4 ≤ (ca : ℚ) / (qa : ℚ)))

/-! ## Learning sessions (`create_learning_session`, user_service.py lines 189-220) -/

/-- The columns of a `LearningSession` row that the active-session
invariant concerns. -/
structure SessionRow where
  user_id : Nat
  session_state : String
deriving DecidableEq, Repr

/-- `true` for a row that is an active session of the given user. -/
def isActiveFor (uid : Nat) (r : SessionRow) : Bool :=
  r.user_id == uid && r.session_state == "active"

/-- The `UPDATE ... SET session_state='paused'` of
`create_learning_session`: pause the row when it is an active session of
the user, leave it unchanged otherwise. -/
def pauseActive (uid : Nat) (r : SessionRow) : SessionRow :=
  if r.user_id = uid ∧ r.session_state = "active" then
    { r with session_state := "paused" }
  else r

/-- `create_learning_session` (user_service.py lines 189-220) on the
session table: first mark every active session of the user paused, then
insert one new active session for the user.  (Both statements commit in
one transaction; on an exception nothing commits and the call re-raises,
so the table is only observed in this completed state.) -/
def createLearningSession (table : List SessionRow) (uid : Nat) : List SessionRow :=
  table.map (pauseActive uid) ++ [{ user_id := uid, session_state := "active" }]

/-- The counter invariant of the learning context: correct answers never
exceed answered questions, and the two streak counters are never both
positive. -/
def countersInvariant (ctx : LearningContext) : Prop :=
  ctx.correct_answers ≤ ctx.questions_answered ∧
    (ctx.consecutive_correct = 0 ∨ ctx.consecutive_incorrect = 0)

/-! ## Helper lemmas -/

theorem adaptDifficulty_counters (ctx : LearningContext) :
    (adaptDifficulty ctx).questions_answered = ctx.questions_answered ∧
    (adaptDifficulty ctx).correct_answers = ctx.correct_answers ∧
    (adaptDifficulty ctx).consecutive_correct = ctx.consecutive_correct ∧
    (adaptDifficulty ctx).consecutive_incorrect = ctx.consecutive_incorrect := by
  unfold adaptDifficulty
  split_ifs <;> simp

theorem countersInvariant_step (ctx : LearningContext) (c : Bool)
    (h : countersInvariant ctx) : countersInvariant (processAnswerStep ctx c) := by
  obtain ⟨h1, _⟩ := h
  unfold countersInvariant processAnswerStep
  obtain ⟨e1, e2, e3, e4⟩ := adaptDifficulty_counters (updateCounters ctx c)
  rw [e1, e2, e3, e4]
  cases c <;> simp [updateCounters] <;> omega

theorem createFallbackQuestion_eq (d : Nat) :
    createFallbackQuestion d = rtoFallbackQuestion := by
  unfold createFallbackQuestion fallbackQuestions
  split <;> rfl

theorem isActiveFor_pauseActive (uid : Nat) (r : SessionRow) :
    isActiveFor uid (pauseActive uid r) = false := by
  unfold isActiveFor pauseActive
  split
  · simp
  · next h =>
    rcases Decidable.em (r.user_id = uid) with h1 | h1
    · rcases Decidable.em (r.session_state = "active") with h2 | h2
      · exact absurd ⟨h1, h2⟩ h
      · simp [h2]
    · simp [h1]

/-! ## Claim C3: monotone, clamped difficulty transitions -/

/-- C3: for every context with difficulty level in `[1,5]`, processing a
correct answer never decreases the level and processing an incorrect
answer never increases it; the resulting level stays in `[1,5]`, and the
bounds saturate: a correct answer at level 5 leaves 5, an incorrect
answer at level 1 leaves 1 (`_process_answer_direct`,
learning_graph.py lines 161-170). -/
theorem c3_monotone_clamped (ctx : LearningContext)
    (h1 : 1 ≤ ctx.current_difficulty) (h5 : ctx.current_difficulty ≤ 5) :
    ctx.current_difficulty ≤ (processAnswerStep ctx true).current_difficulty ∧
    (processAnswerStep ctx false).current_difficulty ≤ ctx.current_difficulty ∧
    (∀ c : Bool, 1 ≤ (processAnswerStep ctx c).current_difficulty ∧
      (processAnswerStep ctx c).current_difficulty ≤ 5) ∧
    (ctx.current_difficulty = 5 → (processAnswerStep ctx true).current_difficulty = 5) ∧
    (ctx.current_difficulty = 1 → (processAnswerStep ctx false).current_difficulty = 1) := by
  refine ⟨?_, ?_, ?_, ?_, ?_⟩
  · simp only [processAnswerStep, updateCounters, adaptDifficulty]
    split_ifs <;> simp_all
  · simp only [processAnswerStep, updateCounters, adaptDifficulty]
    split_ifs <;> simp_all
  · intro c
    cases c <;>
      (simp only [processAnswerStep, updateCounters, adaptDifficulty]
       split_ifs <;> simp_all <;> omega)
  · intro hd
    simp only [processAnswerStep, updateCounters, adaptDifficulty]
    split_ifs <;> simp_all
  · intro hd
    simp only [processAnswerStep, updateCounters, adaptDifficulty]
    split_ifs <;> simp_all

/-- C3 witness: a concrete instance of the saturation at the lower bound. -/
theorem c3_witness : (processAnswerStep (freshContext 7) false).current_difficulty = 1 :=
  (c3_monotone_clamped (freshContext 7) (by decide) (by decide)).2.2.2.2 rfl

/-! ## Claim C4: the hysteresis adaptation policy -/

/-- C4: `_process_answer_direct` implements the hysteresis policy — the
difficulty changes only when the post-update consecutive-correct streak
is ≥ 2 (then by +1) or the consecutive-incorrect streak is ≥ 2 (then by
-1), and from a fresh context at level 1 two consecutive correct answers
yield level 2, not 3 (learning_graph.py lines 144-170). -/
theorem c4_hysteresis_policy :
    (∀ (ctx : LearningContext) (c : Bool),
        (processAnswerStep ctx c).current_difficulty ≠ ctx.current_difficulty →
        2 ≤ (updateCounters ctx c).consecutive_correct ∨
          2 ≤ (updateCounters ctx c).consecutive_incorrect) ∧
    (∀ (ctx : LearningContext) (c : Bool),
        2 ≤ (updateCounters ctx c).consecutive_correct →
        ctx.current_difficulty < 5 →
        (processAnswerStep ctx c).current_difficulty = ctx.current_difficulty + 1) ∧
    (∀ (ctx : LearningContext) (c : Bool),
        2 ≤ (updateCounters ctx c).consecutive_incorrect →
        1 < ctx.current_difficulty →
        (processAnswerStep ctx c).current_difficulty = ctx.current_difficulty - 1) ∧
    (runAnswers (freshContext 0) [true, true]).current_difficulty = 2 := by
  refine ⟨?_, ?_, ?_, by decide⟩ <;>
    (intro ctx c h
     cases c <;>
       (simp only [processAnswerStep, updateCounters, adaptDifficulty] at *
        split_ifs at * <;> simp_all <;> omega))

/-- C4 witness: a concrete increase — one prior correct answer, another
correct answer at level 3 raises the level to 4. -/
theorem c4_witness :
    (processAnswerStep
        { user_id := 0, current_difficulty := 3, questions_answered := 1,
          correct_answers := 1, consecutive_correct := 1, consecutive_incorrect := 0 }
        true).current_difficulty = 3 + 1 :=
  c4_hysteresis_policy.2.1
    { user_id := 0, current_difficulty := 3, questions_answered := 1,
      correct_answers := 1, consecutive_correct := 1, consecutive_incorrect := 0 }
    true (by decide) (by decide)

/-! ## Claim C10: counter invariants of the learning context -/

/-- C10: starting from a fresh context, any sequence of processed answers
preserves `correct_answers ≤ questions_answered` (both counters are
naturals, so `0 ≤ correct_answers` holds by construction) and keeps at
least one of the two streak counters at zero — each answer resets the
opposite streak (`_process_answer_direct`, learning_graph.py lines
144-152; `LearningContext`, lines 28-49). -/
theorem c10_counter_invariants (uid : Nat) (answers : List Bool) :
    countersInvariant (runAnswers (freshContext uid) answers) := by
  have h0 : countersInvariant (freshContext uid) := ⟨Nat.le_refl 0, Or.inl rfl⟩
  have preserved : ∀ (l : List Bool) (ctx : LearningContext), countersInvariant ctx →
      countersInvariant (l.foldl processAnswerStep ctx) := by
    intro l
    induction l with
    | nil => intro ctx h; exact h
    | cons a rest ih =>
      intro ctx h
      rw [List.foldl_cons]
      exact ih _ (countersInvariant_step ctx a h)
  exact preserved answers (freshContext uid) h0

/-! ## Claim C9: at most one active session per user -/

/-- C9: after `create_learning_session` completes for a user, the session
table holds exactly one (hence at most one) active session row for that
user: all previously active rows were marked paused and a single new
active row was inserted (user_service.py lines 189-220). -/
theorem c9_one_active_session (table : List SessionRow) (uid : Nat) :
    ((createLearningSession table uid).filter (isActiveFor uid)).length = 1 := by
  unfold createLearningSession
  rw [List.filter_append]
  have h1 : (table.map (pauseActive uid)).filter (isActiveFor uid) = [] := by
    rw [List.filter_eq_nil_iff]
    intro a ha
    rw [List.mem_map] at ha
    obtain ⟨r, _, rfl⟩ := ha
    simp [isActiveFor_pauseActive]
  rw [h1]
  simp [isActiveFor]

/-! ## Claim C1: failure semantics of the question-generation node -/

/-- C1 counterexample: an empty retrieval result IS fatal — the node sets
`state["error"]` and returns no question (learning_graph.py lines
265-267), contrary to the claim that it proceeds with placeholder context
text. -/
theorem c1_empty_retrieval_is_fatal :
    questionGenerationNode 1 (some []) LLMOutcome.noLLM =
      GenOutcome.genError "Контент для генерации вопроса не найден" := rfl

/-- C1 amended: whenever retrieval yields at least one chunk, the node
always yields a question object — LLM-sourced or fallback — and never an
error, for every difficulty and every LLM/parse outcome; but an empty (or
failed) retrieval yields an error state instead. -/
theorem c1_nonempty_retrieval_never_errors (difficulty : Nat) (docs : List String)
    (llm : LLMOutcome) (h : docs ≠ []) :
    (questionGenerationNode difficulty (some docs) llm).isQuestion = true := by
  unfold questionGenerationNode
  have hne : docs.isEmpty = false := by
    cases docs with
    | nil => exact absurd rfl h
    | cons a l => rfl
  cases llm with
  | noLLM => simp [hne, GenOutcome.isQuestion]
  | llmRaises => simp [hne, GenOutcome.isQuestion]
  | llmReturns raw =>
    cases hp : jsonParse (cleanResponse raw) with
    | none => simp [hne, hp, GenOutcome.isQuestion]
    | some j => simp [hne, hp, GenOutcome.isQuestion]

/-- C1 witness: with one retrieved chunk and a raising LLM, the node
still yields a question. -/
theorem c1_witness :
    (questionGenerationNode 4 (some ["документ"]) LLMOutcome.llmRaises).isQuestion = true :=
  c1_nonempty_retrieval_never_errors 4 ["документ"] LLMOutcome.llmRaises (by simp)

/-! ## Claim C2: the VALIDATE contract on returned questions -/

/-- C2 counterexample: the LLM answering with the syntactically valid
JSON text of an empty object makes the pipeline return that empty object
as the question — no structural validation happens — and the empty object
violates the VALIDATE contract. -/
theorem c2_arbitrary_json_accepted :
    questionGenerationNode 2 (some ["контекст"]) (LLMOutcome.llmReturns "{}") =
      GenOutcome.llmQuestion (JVal.obj []) ∧
    validJsonQuestionSpec (JVal.obj []) = false :=
  ⟨rfl, rfl⟩

/-- C2 amended: the fallback-path question satisfies the VALIDATE
contract for every requested difficulty (so a failing or garbage LLM
still yields a usable question), but the pipeline performs no structural
validation on parsed LLM output: any syntactically valid JSON is returned
as the question unchanged. -/
theorem c2_validate_only_holds_on_fallback :
    (∀ d : Nat, validQuestionSpec (createFallbackQuestion d) = true) ∧
    (∀ (d : Nat) (docs : List String) (raw : String) (j : JVal),
        docs ≠ [] → jsonParse (cleanResponse raw) = some j →
        questionGenerationNode d (some docs) (LLMOutcome.llmReturns raw) =
          GenOutcome.llmQuestion j) := by
  constructor
  · intro d
    rw [createFallbackQuestion_eq]
    decide
  · intro d docs raw j hd hj
    have hne : docs.isEmpty = false := by
      cases docs with
      | nil => exact absurd rfl hd
      | cons a l => rfl
    unfold questionGenerationNode
    simp [hne, hj]

/-- C2 witness: the fallback question at difficulty 2 is valid, and a
well-formed JSON reply is passed through. -/
theorem c2_witness :
    validQuestionSpec (createFallbackQuestion 2) = true ∧
    questionGenerationNode 2 (some ["док"]) (LLMOutcome.llmReturns "null") =
      GenOutcome.llmQuestion JVal.null :=
  ⟨c2_validate_only_holds_on_fallback.1 2,
   c2_validate_only_holds_on_fallback.2 2 ["док"] "null" JVal.null (by simp) rfl⟩

/-! ## Claim C5: the fallback bank -/

/-- C5 counterexample: the fallback question returned for requested
difficulty 3 does not carry difficulty 3 — the bank holds only the
level-1 entry, whose `difficulty` field is 1
(`_create_fallback_question`, learning_graph.py lines 523-541). -/
theorem c5_fallback_difficulty_counterexample :
    ¬ ((createFallbackQuestion 3).difficulty = 3) := by decide

/-- C5 amended: fallback selection is deterministic (no randomness) from
a bank containing a single pre-authored entry at level 1, used as the
universal fallback for every requested level; the returned question's
`difficulty` field equals the requested level exactly when that level
is 1. -/
theorem c5_single_universal_fallback (d : Nat) :
    createFallbackQuestion d = rtoFallbackQuestion ∧
    ((createFallbackQuestion d).difficulty = d ↔ d = 1) := by
  refine ⟨createFallbackQuestion_eq d, ?_⟩
  rw [createFallbackQuestion_eq]
  have h1 : rtoFallbackQuestion.difficulty = 1 := rfl
  rw [h1]
  omega

/-! ## Claim C6: the parse step -/

/-- C6 counterexample: on the raw text `x{}` the first-`{`-to-last-`}`
slice is valid JSON (the spec's PARSE_RESPONSE would decode it), yet the
code decodes the whole fence-stripped text, fails, and falls back — so
the claim's parse rule is not the implemented one. -/
theorem c6_brace_slice_counterexample :
    specParseResponse "x{}" = some (JVal.obj []) ∧
    questionGenerationNode 3 (some ["документ2"]) (LLMOutcome.llmReturns "x{}") =
      GenOutcome.fallbackQuestion rtoFallbackQuestion :=
  ⟨rfl, rfl⟩

/-- C6 amended: the parse step strips surrounding whitespace and markdown
code fences and then attempts a structured decode of the entire cleaned
text (not of a first-`{`-to-last-`}` slice); decode failure yields the
fallback question with no retry, and any raw text whose cleaned text is
valid JSON is successfully parsed (learning_graph.py lines 294-314). -/
theorem c6_parse_strips_fences_no_retry (raw : String) (d : Nat) (docs : List String)
    (h : docs ≠ []) :
    (∀ j : JVal, jsonParse (cleanResponse raw) = some j →
      questionGenerationNode d (some docs) (LLMOutcome.llmReturns raw) =
        GenOutcome.llmQuestion j) ∧
    (jsonParse (cleanResponse raw) = none →
      questionGenerationNode d (some docs) (LLMOutcome.llmReturns raw) =
        GenOutcome.fallbackQuestion (createFallbackQuestion d)) := by
  have hne : docs.isEmpty = false := by
    cases docs with
    | nil => exact absurd rfl h
    | cons a l => rfl
  constructor
  · intro j hj
    unfold questionGenerationNode
    simp [hne, hj]
  · intro hj
    unfold questionGenerationNode
    simp [hne, hj]

/-- C6 witness: a raw reply that is bare valid JSON after cleaning is
parsed and returned. -/
theorem c6_witness :
    questionGenerationNode 5 (some ["кейс"]) (LLMOutcome.llmReturns "true") =
      GenOutcome.llmQuestion (JVal.boolean true) :=
  (c6_parse_strips_fences_no_retry "true" 5 ["кейс"] (by simp)).1 (JVal.boolean true) rfl

/-! ## Claim C7: answer evaluation -/

/-- C7: answer evaluation is total equality comparison
(learning_graph.py lines 138-142): the decimal string of any index
evaluates as correct against that index; any non-numeric answer string is
normalized to `-1` and evaluates as incorrect against every non-negative
correct index; and a question satisfying the VALIDATE contract, answered
with the decimal string of its own `correct_answer`, evaluates as
correct. -/
theorem c7_evaluation_equality_total :
    (∀ n : Nat, evaluateAnswer (natToDecString n) (n : Int) = true) ∧
    (∀ s : String, pyIsDigitStr s = false →
      ∀ c : Int, 0 ≤ c → evaluateAnswer s c = false) ∧
    (∀ q : Question, validQuestionSpec q = true →
      evaluateAnswer (natToDecString q.correct_answer.toNat) q.correct_answer = true) := by
  have key : ∀ n : Nat, evaluateAnswer (natToDecString n) (n : Int) = true := by
    intro n
    unfold evaluateAnswer
    rw [parsePyInt_natToDecString]
    simp
  refine ⟨key, ?_, ?_⟩
  · intro s hs c hc
    unfold evaluateAnswer parsePyInt
    rw [hs]
    simp only [Bool.false_eq_true, if_false, beq_eq_false_iff_ne]
    omega
  · intro q hq
    have h0 : 0 ≤ q.correct_answer := by
      unfold validQuestionSpec at hq
      simp only [Bool.and_eq_true, decide_eq_true_eq] at hq
      exact hq.1.1.2
    have hcast : ((q.correct_answer.toNat : Nat) : Int) = q.correct_answer :=
      Int.toNat_of_nonneg h0
    have hk := key q.correct_answer.toNat
    rw [hcast] at hk
    exact hk

/-- C7 witness: concrete instances of all three evaluation facts. -/
theorem c7_witness :
    evaluateAnswer "abc" 2 = false ∧
    evaluateAnswer (natToDecString 3) ((3 : Nat) : Int) = true ∧
    evaluateAnswer (natToDecString rtoFallbackQuestion.correct_answer.toNat)
      rtoFallbackQuestion.correct_answer = true :=
  ⟨c7_evaluation_equality_total.2.1 "abc" (by decide) 2 (by decide),
   c7_evaluation_equality_total.1 3,
   c7_evaluation_equality_total.2.2 rtoFallbackQuestion (by decide)⟩

/-! ## Claim C8: lesson completion -/

/-- C8 counterexample: on the bot-handler path, reaching the question
threshold (4th answer) with success rate 2/4 — below the 75% pass
threshold — reports `false`: the lesson is simply not completed and
questioning continues; there is no needs-review outcome on this path
(`check_lesson_completion`, lesson_handler.py lines 701-741). -/
theorem c8_handler_below_threshold_continues :
    checkLessonCompletion 3 2 false = (4, 2, false) := by
  unfold checkLessonCompletion
  norm_num

/-- C8 amended: on the graph path (`_process_answer_direct`), reaching
the questions-per-lesson threshold computes
`success_rate = correct/answered·100` and reports completion data with
`lesson_passed` exactly when the success rate is at or above the
`min_lesson_score` threshold (the `lesson_passed = false` case is the
needs-review messaging of `_lesson_completion_node`); on the bot-handler
path, the lesson is reported complete-and-passed exactly when at least 4
questions are answered with accuracy ≥ 75%, and otherwise questioning
continues with no needs-review branch. -/
theorem c8_completion_rule :
    (∀ (qpl minScore : Nat) (ctx : LearningContext),
        qpl ≤ ctx.questions_answered → 0 < ctx.questions_answered →
        (checkCompletionGraph qpl minScore ctx).map CompletionData.lesson_passed =
          some (decide
            ((minScore : ℚ) * (ctx.questions_answered : ℚ) ≤
              100 * (ctx.correct_answers : ℚ)))) ∧
    (∀ (questionsAnswered correctAnswers : Nat) (c : Bool),
        (checkLessonCompletion questionsAnswered correctAnswers c).2.2 =
          decide (4 ≤ questionsAnswered + 1 ∧
            (3 : ℚ) * ((questionsAnswered : ℚ) + 1) ≤
              4 * ((correctAnswers + (if c then 1 else 0) : Nat) : ℚ))) := by
  constructor
  · intro qpl ms ctx hq hpos
    unfold checkCompletionGraph
    rw [if_pos hq]
    simp only [Option.map_some']
    congr 1
    rw [decide_eq_decide]
    have hq0 : (0 : ℚ) < (ctx.questions_answered : ℚ) := by exact_mod_cast hpos
    rw [div_mul_eq_mul_div, le_div_iff₀ hq0]
    constructor <;> intro h <;> linarith
  · intro qa ca c
    unfold checkLessonCompletion
    rw [decide_eq_decide]
    apply and_congr_right
    intro _
    have hq1 : (0 : ℚ) < ((qa : Nat) + 1 : Nat) := by positivity
    rw [div_le_div_iff₀ (by norm_num) hq1]
    push_cast
    constructor <;> intro h <;> linarith

/-- C8 witness: at the default thresholds (5 questions, 80%), 4 of 5
correct is exactly a pass on the graph path. -/
theorem c8_witness :
    (checkCompletionGraph questionsPerLesson minLessonScore
        { user_id := 0, current_difficulty := 2, questions_answered := 5,
          correct_answers := 4, consecutive_correct := 1,
          consecutive_incorrect := 0 }).map CompletionData.lesson_passed = some true := by
  have h := c8_completion_rule.1 questionsPerLesson minLessonScore
      { user_id := 0, current_difficulty := 2, questions_answered := 5,
        correct_answers := 4, consecutive_correct := 1, consecutive_incorrect := 0 }
      (by decide) (by decide)
  rw [h]
  norm_num [minLessonScore]

end BankRiskBot
